import Mathlib

/-!
Verification of the relationship batch loader
(`src/strawberry_sqlalchemy_mapper/loader.py`).

The loader builds, per SQLAlchemy relationship, a batched `load_fn` that
turns a list of batch keys (tuples of local-column values) into one query
and regroups the resulting rows back into one output slot per key.

Shallow embedding conventions:
* a `Column` carries the table it belongs to, a name, and its optional
  string `key` (the Python code tests `remote.key` for truthiness, which
  is false for `None` and for the empty string);
* a `Relationship` carries exactly the fields of `RelationshipProperty`
  that `load_fn` reads: `local_remote_pairs`, `local_columns`, `uselist`
  and `order_by`;
* the backing store is a `World`: the joined FROM-clause product in
  storage order, each `Row` giving the target entity of the row together
  with a valuation of every column.  `query_rows` is the denotation of
  the query `load_fn` builds: the join conditions added by `query.join`
  restrict the product, `order_by` sorts it (ties broken by storage
  order), and the multi-column `IN` predicate keeps the rows whose
  filter-column tuple is one of the batch keys;
* the `defaultdict(list)` regrouping loop is embedded as a `foldl` over
  the result rows updating a total function with default `[]`;
* the loader object itself (`__init__`, `_execute`, `loader_for`) is
  embedded as a `Loader` structure with an association-list registry and
  optional sync/async bindings; `_execute` is modelled by the sequence
  of binding events it performs plus the error it raises when neither
  binding is configured (the `assert self._bind is not None`).
-/

/-- Scalar column values. -/
abbrev Val := Int

/-- A database column: the table it lives in, its name, and its SQLAlchemy
`key` attribute (`none` models Python `None`; the code tests `remote.key`
for truthiness). -/
structure Column where
  table : Nat
  name : Nat
  key : Option String
deriving DecidableEq, Repr

/-- Python truthiness of a column's `key` attribute: `None` and the empty
string are falsy. -/
def Column.keyTruthy (c : Column) : Bool :=
  match c.key with
  | none => false
  | some s => s ≠ ""

/-- The fields of `RelationshipProperty` read by `load_fn`:
`local_remote_pairs` (`none` models Python `None`, handled by
`relationship.local_remote_pairs or []`), `local_columns`, `uselist`, and
`order_by` (the empty list models a falsy `order_by`). -/
structure Relationship where
  local_remote_pairs : Option (List (Column × Column))
  local_columns : List Column
  uselist : Bool
  order_by : List Column
deriving DecidableEq, Repr

/-- The Python expression `relationship.local_remote_pairs or []`. -/
def Relationship.pairs (rel : Relationship) : List (Column × Column) :=
  match rel.local_remote_pairs with
  | none => []
  | some ps => ps

/-- The list comprehension building `remote_cols_for_where`: remote sides
of pairs whose local side is in `relationship.local_columns` and whose
`remote.key` is truthy. -/
def remote_cols_for_where (rel : Relationship) : List Column :=
  (rel.pairs.filter
    (fun p => decide (p.1 ∈ rel.local_columns) && p.2.keyTruthy)).map Prod.snd

/-- The list comprehension building `non_local_pairs`: pairs whose local
side is not in `relationship.local_columns`. -/
def non_local_pairs (rel : Relationship) : List (Column × Column) :=
  rel.pairs.filter (fun p => !decide (p.1 ∈ rel.local_columns))

/-- One row of the joined FROM-clause product: the target entity carried
by the row and the value each column takes on it. -/
structure Row where
  entity : Nat
  colVal : Column → Val

/-- The backing store as seen by one query: the joined product in storage
order. -/
abbrev World := List Row

/-- A batch key: the tuple of values of the filter columns. -/
abbrev BatchKey := List Val

/-- Whether a row of the product satisfies every explicit join condition
`local == remote` added by `query = query.join(remote.table, local == remote)`
for the non-local pairs. -/
def joinOk (rel : Relationship) (r : Row) : Bool :=
  (non_local_pairs rel).all (fun p => r.colVal p.1 == r.colVal p.2)

/-- The tuple of filter-column values a row exposes: the values of
`remote_cols_for_where`, in order.  These are the extra selected columns
`*cols_filtered_on` of each result row. -/
def filterTuple (rel : Relationship) (r : Row) : BatchKey :=
  (remote_cols_for_where rel).map r.colVal

/-- The ordering key of a row under the relationship's `order_by` columns. -/
def orderTuple (rel : Relationship) (r : Row) : List Val :=
  rel.order_by.map r.colVal

/-- Lexicographic comparison of two value tuples (the order `ORDER BY`
induces on rows, component by component). -/
def lexLe : List Val → List Val → Bool
  | [], _ => true
  | _ :: _, [] => true
  | x :: xs, y :: ys => if x = y then lexLe xs ys else decide (x ≤ y)

/-- Insert a row into a list sorted by `le`, before the first strictly
later row (so that rows comparing equal keep storage order). -/
def insertRow (le : Row → Row → Bool) (r : Row) : List Row → List Row
  | [] => [r]
  | x :: xs => if le r x then r :: x :: xs else x :: insertRow le r xs

/-- Stable insertion sort of the product rows by `le`. -/
def sortRows (le : Row → Row → Bool) : List Row → List Row
  | [] => []
  | x :: xs => insertRow le x (sortRows le xs)

/-- Denotation of the query built by `load_fn` before the `IN` filter:
the joined product restricted to rows satisfying the explicit join
conditions, sorted by the relationship's `order_by` when one is declared
(`if relationship.order_by:`), ties broken by storage order. -/
def joinedOrdered (rel : Relationship) (world : World) : List Row :=
  let base := world.filter (joinOk rel)
  if rel.order_by.isEmpty then base
  else sortRows (fun a b => lexLe (orderTuple rel a) (orderTuple rel b)) base

/-- Denotation of the full query executed for a batch: the joined,
ordered rows whose filter-column tuple is a member of the supplied keys
(`tuple_(*remote_cols_for_where).in_(keys)`). -/
def query_rows (rel : Relationship) (world : World) (keys : List BatchKey) :
    List Row :=
  (joinedOrdered rel world).filter (fun r => decide (filterTuple rel r ∈ keys))

/-- The tuples `result.tuples().all()` hands back to `load_fn`: for each
result row, the target entity and the values of the filtered-on columns. -/
def resultTuples (rel : Relationship) (world : World) (keys : List BatchKey) :
    List (Nat × BatchKey) :=
  (query_rows rel world keys).map (fun r => (r.entity, filterTuple rel r))

/-- One step of the regrouping loop
`grouped_keys[tuple(cols_filtered_on)].append(target_entity)`:
the `defaultdict(list)` is a total function with default `[]`. -/
def groupStep (g : BatchKey → List Nat) (row : Nat × BatchKey) :
    BatchKey → List Nat :=
  fun k => if k = row.2 then g k ++ [row.1] else g k

/-- The finished `grouped_keys` mapping: fold of the regrouping loop over
the result tuples, starting from the empty `defaultdict(list)`. -/
def grouped_keys (rows : List (Nat × BatchKey)) : BatchKey → List Nat :=
  rows.foldl groupStep (fun _ => [])

/-- An output slot of `load_fn`: a list of entities for a collection
relationship (`uselist`), or one entity / `None` for a singular one. -/
inductive Slot where
  | many (entities : List Nat)
  | one (entity : Nat)
  | null
deriving DecidableEq, Repr

/-- The slots `load_fn` returns given the regrouped result tuples: for
`uselist`, `[grouped_keys[key] for key in keys]`; otherwise
`[grouped_keys[key][0] if grouped_keys[key] else None for key in keys]`. -/
def regroup (rel : Relationship) (keys : List BatchKey)
    (rows : List (Nat × BatchKey)) : List Slot :=
  let g := grouped_keys rows
  if rel.uselist then keys.map (fun k => Slot.many (g k))
  else keys.map (fun k =>
    match g k with
    | [] => Slot.null
    | e :: _ => Slot.one e)

/-- The whole of `load_fn` against a backing store: build the query,
execute it, regroup the rows, one slot per supplied key. -/
def load_fn (rel : Relationship) (world : World) (keys : List BatchKey) :
    List Slot :=
  regroup rel keys (resultTuples rel world keys)

/-- Outcome of `load_fn` when query execution itself may fail: the
exception raised by `await self._execute(query)` propagates unmodified
(there is no handler in `load_fn`), otherwise the rows are regrouped. -/
def load_fn_exec (rel : Relationship) (keys : List BatchKey)
    (executed : Except String (List (Nat × BatchKey))) :
    Except String (List Slot) :=
  match executed with
  | Except.error e => Except.error e
  | Except.ok rows => Except.ok (regroup rel keys rows)

/-- The `StrawberrySQLAlchemyLoader` object.  `_loaders` is the registry
dictionary keyed by relationship (identity-stable keys, modelled by
`DecidableEq`); each stored `DataLoader` is identified by the counter
value at its creation so that distinct creations are distinct units.
`_bind` and `_async_bind_factory` are the two optional execution
bindings; `warned` records whether `__init__` logged the
misconfiguration warning. -/
structure Loader where
  _loaders : List (Relationship × Nat)
  nextUnit : Nat
  _bind : Option Nat
  _async_bind_factory : Option Nat
  warned : Bool

/-- The constructor `__init__`: empty registry, both bindings stored as
given, and the warning emitted exactly when
`bind is None and async_bind_factory is None`.  Construction is total:
it never fails. -/
def Loader.init (bind : Option Nat) (async_bind_factory : Option Nat) :
    Loader :=
  { _loaders := []
    nextUnit := 0
    _bind := bind
    _async_bind_factory := async_bind_factory
    warned := bind.isNone && async_bind_factory.isNone }

/-- Dictionary lookup `self._loaders[relationship]` (`none` is the
`KeyError` case). -/
def lookupUnit (entries : List (Relationship × Nat)) (rel : Relationship) :
    Option Nat :=
  match entries with
  | [] => none
  | e :: rest => if e.1 = rel then some e.2 else lookupUnit rest rel

/-- The method `loader_for`: return the stored `DataLoader` on a registry
hit; on `KeyError`, create a fresh one, store it under the relationship,
and return it. -/
def loader_for (l : Loader) (rel : Relationship) : Nat × Loader :=
  match lookupUnit l._loaders rel with
  | some u => (u, l)
  | none =>
      (l.nextUnit,
        { l with
            _loaders := l._loaders ++ [(rel, l.nextUnit)]
            nextUnit := l.nextUnit + 1 })

/-- Observable binding events of one `_execute` call. -/
inductive BindEvent where
  | acquire
  | runQuery
  | release
  | syncQuery
deriving DecidableEq, Repr

/-- The method `_execute`: when an async bind factory is configured,
enter the factory's context (acquire), run the one query, and exit the
context (release); otherwise `assert self._bind is not None` and execute
directly on the synchronous bind.  The result is the sequence of binding
events, or the `AssertionError` when neither binding is configured. -/
def Loader.execute (l : Loader) : Except String (List BindEvent) :=
  match l._async_bind_factory with
  | some _ =>
      Except.ok [BindEvent.acquire, BindEvent.runQuery, BindEvent.release]
  | none =>
      match l._bind with
      | some _ => Except.ok [BindEvent.syncQuery]
      | none => Except.error "AssertionError"

/-- The slot `load_fn` produces for one key of a batch, read off from the
regrouped result tuples of the batched query. -/
def slotFor (rel : Relationship) (world : World) (keys : List BatchKey)
    (k : BatchKey) : Slot :=
  let g := grouped_keys (resultTuples rel world keys)
  if rel.uselist then Slot.many (g k)
  else
    match g k with
    | [] => Slot.null
    | e :: _ => Slot.one e

/-- Concrete fixture: the parent table's primary-key column. -/
def idCol : Column := ⟨0, 0, some "id"⟩

/-- Concrete fixture: the child table's foreign-key column. -/
def fkCol : Column := ⟨1, 0, some "d_id"⟩

/-- Concrete fixture: a remote column whose SQLAlchemy `key` attribute is
`None`. -/
def keylessCol : Column := ⟨1, 1, none⟩

/-- Concrete fixture: a one-to-many relationship from the parent table to
the child table. -/
def relOneToMany : Relationship :=
  { local_remote_pairs := some [(idCol, fkCol)]
    local_columns := [idCol]
    uselist := true
    order_by := [] }

/-- Concrete fixture: the corresponding many-to-one relationship. -/
def relManyToOne : Relationship :=
  { relOneToMany with uselist := false }

/-- Concrete fixture: a relationship whose only column pair has a local
side in `local_columns` but a remote column with a `None` key. -/
def relKeylessRemote : Relationship :=
  { local_remote_pairs := some [(idCol, keylessCol)]
    local_columns := [idCol]
    uselist := true
    order_by := [] }

/-- Concrete fixture: two child rows, entity `101` referencing parent `2`
and entity `102` referencing parent `1`. -/
def childWorld : World :=
  [ ⟨101, fun c => if c = fkCol then 2 else 0⟩,
    ⟨102, fun c => if c = fkCol then 1 else 0⟩ ]

/-! ### Lemmas about the regrouping fold and the query denotation -/

/-- The regrouping fold, started from any accumulator, appends to each
key's bucket exactly the entities of the rows carrying that key, in row
order. -/
theorem foldl_groupStep (rows : List (Nat × BatchKey))
    (g : BatchKey → List Nat) (k : BatchKey) :
    rows.foldl groupStep g k
      = g k ++ (rows.filter (fun q => decide (q.2 = k))).map Prod.fst := by
  induction rows generalizing g with
  | nil => simp
  | cons r rs ih =>
      rw [List.foldl_cons, ih]
      by_cases h : k = r.2
      · subst h
        simp [groupStep, List.filter_cons]
      · have h2 : ¬r.2 = k := fun hh => h hh.symm
        simp [groupStep, h, h2, List.filter_cons]

/-- The finished `grouped_keys` mapping sends a key to the entities of
the result rows carrying it, in result order. -/
theorem grouped_keys_spec (rows : List (Nat × BatchKey)) (k : BatchKey) :
    grouped_keys rows k
      = (rows.filter (fun q => decide (q.2 = k))).map Prod.fst := by
  have h := foldl_groupStep rows (fun _ => []) k
  simpa [grouped_keys] using h

/-- Regrouping the batched query's tuples at a key yields the entities of
the query rows whose filter tuple is that key, in query-result order. -/
theorem grouped_resultTuples (rel : Relationship) (world : World)
    (keys : List BatchKey) (k : BatchKey) :
    grouped_keys (resultTuples rel world keys) k
      = ((query_rows rel world keys).filter
          (fun r => decide (filterTuple rel r = k))).map Row.entity := by
  rw [grouped_keys_spec]
  unfold resultTuples
  rw [List.filter_map, List.map_map]
  rfl

/-- The batched `load_fn` is the map of the per-key slot function over
the supplied keys. -/
theorem load_fn_eq_map (rel : Relationship) (world : World)
    (keys : List BatchKey) :
    load_fn rel world keys = keys.map (slotFor rel world keys) := by
  unfold load_fn regroup slotFor
  cases h : rel.uselist <;> simp [h]

/-- For a key belonging to the batch, restricting the batched query to
that key gives exactly the query the singleton batch would run. -/
theorem query_filter_key (rel : Relationship) (world : World)
    (keys : List BatchKey) (k : BatchKey) (hk : k ∈ keys) :
    (query_rows rel world keys).filter
        (fun r => decide (filterTuple rel r = k))
      = query_rows rel world [k] := by
  unfold query_rows
  rw [List.filter_filter]
  apply List.filter_congr
  intro r _
  by_cases h : filterTuple rel r = k
  · simp [h, hk]
  · simp [h]

/-- The slot computed for a key inside a batch containing it equals the
slot computed by the singleton batch for that key. -/
theorem slotFor_singleton (rel : Relationship) (world : World)
    (keys : List BatchKey) (k : BatchKey) (hk : k ∈ keys) :
    slotFor rel world keys k = slotFor rel world [k] k := by
  simp only [slotFor, grouped_resultTuples]
  rw [query_filter_key rel world keys k hk,
    query_filter_key rel world [k] k (by simp)]

/-! ### C1, C3, C4, C5: shape and content of the batched output -/

/-- C1: for every relationship and non-empty key list, the batched
`load_fn` returns one slot per input key, in input order: the output
length equals the key-list length, the i-th slot is the slot computed
for the i-th key (so each occurrence of a duplicated key gets its own
correctly-positioned result), and a key matched by no query row still
occupies its slot, as an empty sequence for a collection relationship
and as `None` for a singular one. -/
theorem batched_output_matches_keys (rel : Relationship) (world : World)
    (keys : List BatchKey) (_hne : keys ≠ []) :
    (load_fn rel world keys).length = keys.length
    ∧ (∀ (i : Nat) (k : BatchKey), keys[i]? = some k →
        (load_fn rel world keys)[i]? = some (slotFor rel world keys k))
    ∧ (∀ k, k ∈ keys →
        (∀ r, r ∈ query_rows rel world keys → filterTuple rel r ≠ k) →
        slotFor rel world keys k
          = if rel.uselist then Slot.many [] else Slot.null) := by
  refine ⟨?_, ?_, ?_⟩
  · rw [load_fn_eq_map]
    exact List.length_map _ _
  · intro i k hk
    rw [load_fn_eq_map, List.getElem?_map, hk]
    rfl
  · intro k _ hnone
    have hempty : (query_rows rel world keys).filter
        (fun r => decide (filterTuple rel r = k)) = [] := by
      rw [List.filter_eq_nil_iff]
      intro r hr
      simpa using hnone r hr
    simp only [slotFor, grouped_resultTuples, hempty, List.map_nil]

/-- C1 witness: the shape theorem applied to the concrete one-to-many
fixture with batch `[[1], [2]]`. -/
theorem batched_output_matches_keys_witness :
    ([[1], [2]] : List BatchKey) ≠ []
    ∧ (load_fn relOneToMany childWorld [[1], [2]]).length
        = ([[1], [2]] : List BatchKey).length :=
  ⟨by decide,
    (batched_output_matches_keys relOneToMany childWorld [[1], [2]]
      (by decide)).1⟩

/-- C3: batching is semantically transparent: the i-th slot of the
batched load equals the sole slot of the load run on the singleton list
holding only the i-th key, against the same backing data. -/
theorem batched_equals_singleton_load (rel : Relationship) (world : World)
    (keys : List BatchKey) (i : Nat) (k : BatchKey)
    (hk : keys[i]? = some k) :
    (load_fn rel world [k]).length = 1
    ∧ (load_fn rel world keys)[i]? = (load_fn rel world [k])[0]? := by
  constructor
  · rw [load_fn_eq_map]
    simp
  · rw [load_fn_eq_map, load_fn_eq_map, List.getElem?_map, List.getElem?_map,
      hk]
    have hmem : k ∈ keys := List.getElem?_mem hk
    simp [slotFor_singleton rel world keys k hmem]

/-- C3 witness: the transparency theorem applied to the concrete
one-to-many fixture at index 0 of batch `[[1], [2]]`. -/
theorem batched_equals_singleton_load_witness :
    (load_fn relOneToMany childWorld [[1]]).length = 1
    ∧ (load_fn relOneToMany childWorld [[1], [2]])[0]?
        = (load_fn relOneToMany childWorld [[1]])[0]? :=
  batched_equals_singleton_load relOneToMany childWorld [[1], [2]] 0 [1]
    (by decide)

/-- C4: for a collection relationship, the slot of each key is exactly
the subsequence of query-result rows whose filter tuple equals the key,
in query-result order. -/
theorem collection_slot_is_filtered_subsequence (rel : Relationship)
    (world : World) (keys : List BatchKey) (i : Nat) (k : BatchKey)
    (hu : rel.uselist = true) (hk : keys[i]? = some k) :
    (load_fn rel world keys)[i]?
      = some (Slot.many (((query_rows rel world keys).filter
          (fun r => decide (filterTuple rel r = k))).map Row.entity)) := by
  rw [load_fn_eq_map, List.getElem?_map, hk]
  simp [slotFor, hu, grouped_resultTuples]

/-- C4 witness: the collection-slot theorem applied to the concrete
one-to-many fixture at index 0 of batch `[[1], [2]]`. -/
theorem collection_slot_is_filtered_subsequence_witness :
    relOneToMany.uselist = true
    ∧ (load_fn relOneToMany childWorld [[1], [2]])[0]?
        = some (Slot.many
            (((query_rows relOneToMany childWorld [[1], [2]]).filter
              (fun r => decide (filterTuple relOneToMany r = [1]))).map
                Row.entity)) :=
  ⟨rfl,
    collection_slot_is_filtered_subsequence relOneToMany childWorld
      [[1], [2]] 0 [1] rfl (by decide)⟩

/-- C5: for a singular relationship, the slot of each key is the first
matching target entity in query-result order when one exists and `None`
otherwise; the slot is never a sequence (and the key always gets a slot,
never an error: `load_fn` is total). -/
theorem singular_slot_first_or_null (rel : Relationship) (world : World)
    (keys : List BatchKey) (i : Nat) (k : BatchKey)
    (hu : rel.uselist = false) (hk : keys[i]? = some k) :
    ((load_fn rel world keys)[i]?
      = some (match ((query_rows rel world keys).filter
            (fun r => decide (filterTuple rel r = k))).head? with
          | some r => Slot.one r.entity
          | none => Slot.null))
    ∧ (∀ es, (load_fn rel world keys)[i]? ≠ some (Slot.many es)) := by
  have hslot : slotFor rel world keys k
      = match ((query_rows rel world keys).filter
            (fun r => decide (filterTuple rel r = k))).head? with
        | some r => Slot.one r.entity
        | none => Slot.null := by
    simp only [slotFor, hu, grouped_resultTuples, Bool.false_eq_true,
      if_false]
    cases hf : (query_rows rel world keys).filter
        (fun r => decide (filterTuple rel r = k)) with
    | nil => simp
    | cons r rs => simp
  constructor
  · rw [load_fn_eq_map, List.getElem?_map, hk]
    exact congrArg some hslot
  · intro es
    rw [load_fn_eq_map, List.getElem?_map, hk]
    simp only [Option.map_some', hslot]
    cases hf : ((query_rows rel world keys).filter
        (fun r => decide (filterTuple rel r = k))).head? <;> simp

/-- C5 witness: the singular-slot theorem applied to the concrete
many-to-one fixture at index 1 of batch `[[1], [3]]` (key `[3]` has no
matching row). -/
theorem singular_slot_first_or_null_witness :
    relManyToOne.uselist = false
    ∧ ((load_fn relManyToOne childWorld [[1], [3]])[1]?
        = some (match ((query_rows relManyToOne childWorld [[1], [3]]).filter
              (fun r => decide (filterTuple relManyToOne r = [3]))).head? with
            | some r => Slot.one r.entity
            | none => Slot.null))
    ∧ (∀ es, (load_fn relManyToOne childWorld [[1], [3]])[1]?
        ≠ some (Slot.many es)) :=
  ⟨rfl,
    (singular_slot_first_or_null relManyToOne childWorld [[1], [3]] 1 [3]
      rfl (by decide)).1,
    (singular_slot_first_or_null relManyToOne childWorld [[1], [3]] 1 [3]
      rfl (by decide)).2⟩

/-! ### C7: deduplication and per-occurrence dispatch -/

/-- C7: the `IN` predicate of the batched query is a membership test, so
it ranges over the distinct keys only: membership is invariant under
deduplication and the query built for a key list equals the query built
for its deduplicated key list; dispatch stays keyed by value, so every
occurrence of a duplicated key receives the correct slot for its value
and equal keys receive equal slots. -/
theorem query_dedup_invariant (rel : Relationship) (world : World)
    (keys : List BatchKey) :
    (∀ v : BatchKey, v ∈ keys ↔ v ∈ keys.dedup)
    ∧ query_rows rel world keys = query_rows rel world keys.dedup
    ∧ (∀ (i j : Nat) (k : BatchKey), keys[i]? = some k → keys[j]? = some k →
        (load_fn rel world keys)[i]? = some (slotFor rel world keys k)
        ∧ (load_fn rel world keys)[j]? = (load_fn rel world keys)[i]?) := by
  refine ⟨fun v => List.mem_dedup.symm, ?_, ?_⟩
  · unfold query_rows
    apply List.filter_congr
    intro r _
    simp [List.mem_dedup]
  · intro i j k hi hj
    constructor
    · rw [load_fn_eq_map, List.getElem?_map, hi]
      rfl
    · rw [load_fn_eq_map, List.getElem?_map, List.getElem?_map, hi, hj]

/-- C7 witness: deduplication invariance applied to the concrete
one-to-many fixture with the duplicated batch `[[1], [1]]`. -/
theorem query_dedup_invariant_witness :
    query_rows relOneToMany childWorld [[1], [1]]
      = query_rows relOneToMany childWorld ([[1], [1]] : List BatchKey).dedup
    ∧ (load_fn relOneToMany childWorld [[1], [1]])[1]?
        = (load_fn relOneToMany childWorld [[1], [1]])[0]? :=
  ⟨(query_dedup_invariant relOneToMany childWorld [[1], [1]]).2.1,
    ((query_dedup_invariant relOneToMany childWorld [[1], [1]]).2.2 0 1 [1]
      (by decide) (by decide)).2⟩

/-! ### C8: atomicity of a batch under query failure -/

/-- Regrouping produces exactly one slot per supplied key. -/
theorem regroup_length (rel : Relationship) (keys : List BatchKey)
    (rows : List (Nat × BatchKey)) :
    (regroup rel keys rows).length = keys.length := by
  cases h : rel.uselist <;> simp [regroup, h]

/-- C8: a batch is atomic with respect to query failure: either the
query execution failed and `load_fn` propagates that same failure
unmodified to the whole batch, or it succeeded and every key receives a
result slot; there is no partial result, retry or fallback branch. -/
theorem batch_failure_atomic (rel : Relationship) (keys : List BatchKey)
    (executed : Except String (List (Nat × BatchKey))) :
    (∃ e, executed = Except.error e
        ∧ load_fn_exec rel keys executed = Except.error e)
    ∨ (∃ out, load_fn_exec rel keys executed = Except.ok out
        ∧ out.length = keys.length) := by
  cases executed with
  | error e => exact Or.inl ⟨e, rfl, rfl⟩
  | ok rows =>
      exact Or.inr ⟨regroup rel keys rows, rfl, regroup_length rel keys rows⟩

/-! ### C6: the fetch-unit registry -/

/-- Lookup distributes over appending registry entries: the earlier
entries win, the appended ones are consulted only on a miss. -/
theorem lookupUnit_append (xs ys : List (Relationship × Nat))
    (r : Relationship) :
    lookupUnit (xs ++ ys) r
      = match lookupUnit xs r with
        | some v => some v
        | none => lookupUnit ys r := by
  induction xs with
  | nil => simp [lookupUnit]
  | cons e es ih =>
      by_cases h : e.1 = r
      · simp [lookupUnit, h]
      · simp [lookupUnit, h, ih]

/-- After `loader_for`, the registry maps the requested relationship to
the returned unit. -/
theorem loader_for_stores (l : Loader) (rel : Relationship) :
    lookupUnit ((loader_for l rel).2)._loaders rel
      = some (loader_for l rel).1 := by
  cases hl : lookupUnit l._loaders rel with
  | some u => simp [loader_for, hl]
  | none =>
      simp [loader_for, hl, lookupUnit_append, lookupUnit]

/-- `loader_for` never removes or replaces an existing registry entry. -/
theorem loader_for_preserves (l : Loader) (rel r : Relationship) (v : Nat)
    (h : lookupUnit l._loaders r = some v) :
    lookupUnit ((loader_for l rel).2)._loaders r = some v := by
  cases hl : lookupUnit l._loaders rel with
  | some u => simpa [loader_for, hl] using h
  | none => simp [loader_for, hl, lookupUnit_append, h]

/-- A registry hit returns the stored unit and leaves the loader
unchanged. -/
theorem loader_for_hit (l : Loader) (rel : Relationship) (v : Nat)
    (h : lookupUnit l._loaders rel = some v) :
    loader_for l rel = (v, l) := by
  simp [loader_for, h]

/-- A registry miss creates the fresh unit and appends it under the
requested relationship. -/
theorem loader_for_miss (l : Loader) (rel : Relationship)
    (h : lookupUnit l._loaders rel = none) :
    (loader_for l rel).1 = l.nextUnit
    ∧ ((loader_for l rel).2)._loaders = l._loaders ++ [(rel, l.nextUnit)] := by
  simp [loader_for, h]

/-- C6: `loader_for` is a monotone get-or-create: the returned unit is
stored under the relationship, a repeated call returns the same unit and
the same state (idempotence), every previously stored entry survives
unchanged, a hit returns the existing unit without touching the state,
and a miss appends exactly one fresh entry. -/
theorem loader_for_get_or_create (l : Loader) (rel : Relationship) :
    lookupUnit ((loader_for l rel).2)._loaders rel
      = some (loader_for l rel).1
    ∧ loader_for (loader_for l rel).2 rel
        = ((loader_for l rel).1, (loader_for l rel).2)
    ∧ (∀ (r : Relationship) (v : Nat), lookupUnit l._loaders r = some v →
        lookupUnit ((loader_for l rel).2)._loaders r = some v)
    ∧ (∀ v : Nat, lookupUnit l._loaders rel = some v →
        loader_for l rel = (v, l))
    ∧ (lookupUnit l._loaders rel = none →
        ((loader_for l rel).2)._loaders = l._loaders ++ [(rel, l.nextUnit)]) := by
  refine ⟨loader_for_stores l rel, ?_, ?_, ?_, ?_⟩
  · exact loader_for_hit (loader_for l rel).2 rel (loader_for l rel).1
      (loader_for_stores l rel)
  · intro r v h
    exact loader_for_preserves l rel r v h
  · intro v h
    exact loader_for_hit l rel v h
  · intro h
    exact (loader_for_miss l rel h).2

/-- C6 witness: the get-or-create theorem applied to a freshly
constructed loader and the concrete one-to-many relationship. -/
theorem loader_for_get_or_create_witness :
    lookupUnit
        ((loader_for (Loader.init (some 5) none) relOneToMany).2)._loaders
        relOneToMany
      = some (loader_for (Loader.init (some 5) none) relOneToMany).1
    ∧ loader_for (loader_for (Loader.init (some 5) none) relOneToMany).2
          relOneToMany
        = ((loader_for (Loader.init (some 5) none) relOneToMany).1,
            (loader_for (Loader.init (some 5) none) relOneToMany).2) :=
  ⟨(loader_for_get_or_create (Loader.init (some 5) none) relOneToMany).1,
    (loader_for_get_or_create (Loader.init (some 5) none) relOneToMany).2.1⟩

/-! ### C9, C10: construction and the execution binding -/

/-- C9: constructing a loader is total; with neither binding configured
it only sets the warning flag and the loader stays syntactically usable
(`loader_for` still stores and returns a unit), but `_execute` then
fails its precondition (`assert self._bind is not None`); conversely,
whenever at least one binding is configured, the assertion branch is
unreachable and `_execute` never raises. -/
theorem degraded_loader_warns_then_fails :
    (∀ b f : Option Nat, (Loader.init b f).warned
        = (b.isNone && f.isNone))
    ∧ (Loader.init none none).execute = Except.error "AssertionError"
    ∧ (∀ rel : Relationship,
        lookupUnit ((loader_for (Loader.init none none) rel).2)._loaders rel
          = some (loader_for (Loader.init none none) rel).1)
    ∧ (∀ b f : Option Nat, b.isSome ∨ f.isSome →
        ∀ e, (Loader.init b f).execute ≠ Except.error e) := by
  refine ⟨fun b f => rfl, rfl, ?_, ?_⟩
  · intro rel
    exact loader_for_stores (Loader.init none none) rel
  · intro b f h e
    cases b <;> cases f <;>
      simp [Loader.init, Loader.execute] at h ⊢

/-- C9 witness: the degraded-construction theorem applied to the
sync-only loader `Loader.init (some 5) none`. -/
theorem degraded_loader_warns_then_fails_witness :
    ((some 5 : Option Nat).isSome ∨ (none : Option Nat).isSome)
    ∧ (Loader.init (some 5) none).execute ≠ Except.error "AssertionError" :=
  ⟨Or.inl rfl,
    degraded_loader_warns_then_fails.2.2.2 (some 5) none (Or.inl rfl)
      "AssertionError"⟩

/-- C10: whenever an async bind factory is configured, `_execute` takes
the scoped asynchronous path — acquire the handle, run the one query,
release the handle — and never touches the synchronous bind; the
synchronous path runs only when no factory is configured and a bind is. -/
theorem async_factory_takes_priority (l : Loader) :
    (∀ f : Nat, l._async_bind_factory = some f →
        l.execute = Except.ok
          [BindEvent.acquire, BindEvent.runQuery, BindEvent.release]
        ∧ BindEvent.syncQuery
            ∉ [BindEvent.acquire, BindEvent.runQuery, BindEvent.release])
    ∧ (l._async_bind_factory = none → ∀ b : Nat, l._bind = some b →
        l.execute = Except.ok [BindEvent.syncQuery]) := by
  constructor
  · intro f hf
    exact ⟨by simp [Loader.execute, hf], by decide⟩
  · intro hn b hb
    simp [Loader.execute, hn, hb]

/-- C10 witness: the priority theorem applied to a loader configured
with both a synchronous bind and an async bind factory. -/
theorem async_factory_takes_priority_witness :
    (Loader.init (some 5) (some 7)).execute
      = Except.ok [BindEvent.acquire, BindEvent.runQuery, BindEvent.release] :=
  ((async_factory_takes_priority (Loader.init (some 5) (some 7))).1 7
    rfl).1

/-! ### C2: the pair partition -/

/-- C2 counterexample: the claimed partition does not cover every pair.
For the concrete relationship whose single pair `(idCol, keylessCol)`
has its local side in `local_columns` but a remote column whose `key`
attribute is `None`, the pair lands in neither group: its remote column
is not selected for the `IN` filter (the comprehension also requires
`remote.key` to be truthy) and the pair is not an explicit join pair. -/
theorem pair_dropped_from_both_groups :
    (idCol, keylessCol) ∈ relKeylessRemote.pairs
    ∧ idCol ∈ relKeylessRemote.local_columns
    ∧ keylessCol ∉ remote_cols_for_where relKeylessRemote
    ∧ (idCol, keylessCol) ∉ non_local_pairs relKeylessRemote := by
  decide

/-- C2 amended: every pair falls in exactly one of three groups — a
filter pair (local side declared local and remote `key` truthy, its
remote column selected and filtered), a join pair (local side not
declared local), or a dropped pair (local side declared local but remote
`key` falsy, belonging to neither group); moreover every join pair comes
from the pair list with a non-local local side, and every filtered
column comes from some filter pair. -/
theorem pair_partition_with_keyless_exception (rel : Relationship) :
    (∀ p : Column × Column, p ∈ rel.pairs →
      (p.1 ∈ rel.local_columns ∧ p.2.keyTruthy = true
          ∧ p.2 ∈ remote_cols_for_where rel ∧ p ∉ non_local_pairs rel)
      ∨ (p.1 ∉ rel.local_columns ∧ p ∈ non_local_pairs rel)
      ∨ (p.1 ∈ rel.local_columns ∧ p.2.keyTruthy = false
          ∧ p ∉ non_local_pairs rel))
    ∧ (∀ p : Column × Column, p ∈ non_local_pairs rel →
        p ∈ rel.pairs ∧ p.1 ∉ rel.local_columns)
    ∧ (∀ c : Column, c ∈ remote_cols_for_where rel →
        ∃ p, p ∈ rel.pairs ∧ p.1 ∈ rel.local_columns
          ∧ p.2.keyTruthy = true ∧ p.2 = c) := by
  refine ⟨?_, ?_, ?_⟩
  · intro p hp
    by_cases hl : p.1 ∈ rel.local_columns
    · have hnj : p ∉ non_local_pairs rel := by
        intro hmem
        have h2 := (List.mem_filter.mp hmem).2
        simp [hl] at h2
      by_cases hk : p.2.keyTruthy
      · refine Or.inl ⟨hl, hk, ?_, hnj⟩
        exact List.mem_map_of_mem Prod.snd
          (List.mem_filter.mpr ⟨hp, by simp [hl, hk]⟩)
      · exact Or.inr (Or.inr ⟨hl, by simpa using hk, hnj⟩)
    · exact Or.inr (Or.inl ⟨hl,
        List.mem_filter.mpr ⟨hp, by simp [hl]⟩⟩)
  · intro p hp
    have h1 := List.mem_filter.mp hp
    refine ⟨h1.1, ?_⟩
    have h2 := h1.2
    simpa using h2
  · intro c hc
    obtain ⟨p, hp, hpc⟩ := List.mem_map.mp hc
    have h1 := List.mem_filter.mp hp
    have h2 := h1.2
    simp only [Bool.and_eq_true, decide_eq_true_eq] at h2
    exact ⟨p, h1.1, h2.1, h2.2, hpc⟩

/-- C2 witness: the amended partition theorem applied to the concrete
one-to-many fixture and its single pair `(idCol, fkCol)`. -/
theorem pair_partition_with_keyless_exception_witness :
    ((idCol, fkCol).1 ∈ relOneToMany.local_columns
        ∧ (idCol, fkCol).2.keyTruthy = true
        ∧ (idCol, fkCol).2 ∈ remote_cols_for_where relOneToMany
        ∧ (idCol, fkCol) ∉ non_local_pairs relOneToMany)
    ∨ ((idCol, fkCol).1 ∉ relOneToMany.local_columns
        ∧ (idCol, fkCol) ∈ non_local_pairs relOneToMany)
    ∨ ((idCol, fkCol).1 ∈ relOneToMany.local_columns
        ∧ (idCol, fkCol).2.keyTruthy = false
        ∧ (idCol, fkCol) ∉ non_local_pairs relOneToMany) :=
  (pair_partition_with_keyless_exception relOneToMany).1 (idCol, fkCol)
    (by decide)
